import Mathlib

set_option maxRecDepth 100000

/-!
Verification of the crowdsourcing intake-and-archival pipeline.

This file gives a shallow embedding of `process_issues.py` and
`crowdsourcing/archive_manager.py`: pure Lean functions mirror the Python
functions, stateful behaviour (retry loops, the archive index) is made
explicit, and external collaborators (the GitHub HTTP API, the Zenodo
deposit service, the oc_ds_converter identifier managers, the oc_validator
closure validator, the filesystem) are modelled as explicit parameters or
oracles.  Machine integers do not overflow in the source (Python ints), so
`Nat`/`Int` are used directly.
-/

/-! ## String helpers mirroring Python built-ins -/

/-- The whitespace class used by Python `str.strip` and by `\s` in the
title regular expressions, restricted to the ASCII range that the issue
titles and bodies use: space, tab, newline, carriage return, vertical tab,
form feed. -/
def isPySpace (c : Char) : Bool :=
  c = ' ' || c = '\t' || c = '\n' || c = '\r' || c.toNat = 11 || c.toNat = 12

/-- Python `str.strip()`: remove leading and trailing whitespace. -/
def pyStrip (s : String) : String :=
  ⟨((s.data.dropWhile isPySpace).reverse.dropWhile isPySpace).reverse⟩

/-- Substring test on character lists (Python `pat in s`). -/
def hasSubList (pat : List Char) : List Char → Bool
  | [] => pat.isEmpty
  | c :: rest => pat.isPrefixOf (c :: rest) || hasSubList pat rest

/-- Python `pat in s` for strings. -/
def strContains (s pat : String) : Bool :=
  hasSubList pat.data s.data

/-- ASCII lowercasing, as `re.IGNORECASE` applies to this pattern. -/
def lowerChar (c : Char) : Char :=
  if 65 ≤ c.toNat && c.toNat ≤ 90 then Char.ofNat (c.toNat + 32) else c

/-- Splitting worker: scan the input, cutting at each non-overlapping
occurrence of `sep`; `fuel` (any value at least the input length) makes
the recursion structural so that the kernel can evaluate it. -/
def splitOnFuel (sep : List Char) : Nat → List Char → List Char → List (List Char)
  | _, [], acc => [acc.reverse]
  | 0, s, acc => [acc.reverse ++ s]
  | fuel + 1, c :: rest, acc =>
    if sep.isPrefixOf (c :: rest) then
      acc.reverse :: splitOnFuel sep fuel ((c :: rest).drop sep.length) []
    else splitOnFuel sep fuel rest (c :: acc)

/-- Python `s.split(sep)` for a nonempty separator. -/
def pySplit (s sep : String) : List String :=
  (splitOnFuel sep.data s.data.length s.data []).map (fun l => ⟨l⟩)

/-- ASCII uppercasing of a character. -/
def upperChar (c : Char) : Char :=
  if 97 ≤ c.toNat && c.toNat ≤ 122 then Char.ofNat (c.toNat - 32) else c

/-- Python `s.lower()` on the ASCII range the schema tokens use. -/
def strToLower (s : String) : String := ⟨s.data.map lowerChar⟩

/-- Python `s.upper()` on the ASCII range the schema tokens use. -/
def strToUpper (s : String) : String := ⟨s.data.map upperChar⟩

/-- Python `sep.join(l)` (used for `"\n".join(error_messages)`). -/
def joinWith (sep : String) : List String → String
  | [] => ""
  | [x] => x
  | x :: y :: xs => x ++ sep ++ joinWith sep (y :: xs)

/-! ## A small backtracking regular-expression engine

`_validate_title` runs `re.search` with the pattern
`deposit\s+(.+?)\s+([a-zA-Z]+):(.+)` under `re.IGNORECASE` (the initial
`basic_format` check uses the same pattern without the last two capture
groups, so a single search decides both).  The engine below implements
exactly the constructs that pattern needs: case-insensitive literals and
greedy/lazy one-or-more repetitions of a character class, with Python's
leftmost-match, backtracking semantics. -/

/-- Case-insensitive character comparison. -/
def charEqCI (a b : Char) : Bool := lowerChar a = lowerChar b

/-- `[a-zA-Z]`. -/
def isAsciiAlpha (c : Char) : Bool :=
  (65 ≤ c.toNat && c.toNat ≤ 90) || (97 ≤ c.toNat && c.toNat ≤ 122)

/-- `.` (any character except newline; `re.DOTALL` is not set). -/
def isDotClass (c : Char) : Bool := c ≠ '\n'

/-- One element of the fixed pattern: a case-insensitive literal, or a
one-or-more repetition of a class (`greedy = false` for `+?`), optionally
capturing into a numbered group. -/
inductive RElem where
  | lit : List Char → RElem
  | plus : (Char → Bool) → Bool → Option Nat → RElem

/-- Consume a case-insensitive literal, returning the rest of the input. -/
def ciLit : List Char → List Char → Option (List Char)
  | [], s => some s
  | _, [] => none
  | a :: as, b :: bs => if charEqCI a b then ciLit as bs else none

/-- All ways to split the input as a nonempty run of `cls` characters
followed by the rest, shortest run first (the lazy preference order). -/
def plusSplits (cls : Char → Bool) : List Char → List (List Char × List Char)
  | [] => []
  | c :: rest =>
    if cls c then
      ([c], rest) :: (plusSplits cls rest).map (fun p => (c :: p.1, p.2))
    else []

/-- Record a capture group. -/
def addCap (grp : Option Nat) (a : List Char) (caps : List (Nat × List Char)) :
    List (Nat × List Char) :=
  match grp with
  | some g => (g, a) :: caps
  | none => caps

/-- Match a list of pattern elements at the start of the input, trying
alternatives in backtracking order (greedy repetitions longest-first, lazy
ones shortest-first).  The match need not reach the end of the input, as
`re.search` does not anchor.  `fuel` bounds the recursion; any value at
least the number of elements is enough. -/
def matchElems : Nat → List RElem → List Char → Option (List (Nat × List Char))
  | _, [], _ => some []
  | 0, _ :: _, _ => none
  | fuel + 1, .lit l :: es, s =>
    match ciLit l s with
    | some rest => matchElems fuel es rest
    | none => none
  | fuel + 1, .plus cls greedy grp :: es, s =>
    let splits := if greedy then (plusSplits cls s).reverse else plusSplits cls s
    splits.findSome? fun p =>
      match matchElems fuel es p.2 with
      | some caps => some (addCap grp p.1 caps)
      | none => none

/-- `re.search`: try to match at each start position, leftmost first. -/
def reSearch (elems : List RElem) : List Char → Option (List (Nat × List Char))
  | [] => matchElems 8 elems []
  | c :: t =>
    match matchElems 8 elems (c :: t) with
    | some caps => some caps
    | none => reSearch elems t

/-- The pattern `deposit\s+(.+?)\s+([a-zA-Z]+):(.+)` of `_validate_title`. -/
def titlePattern : List RElem :=
  [.lit "deposit".data,
   .plus isPySpace true none,
   .plus isDotClass false (some 1),
   .plus isPySpace true none,
   .plus isAsciiAlpha true (some 2),
   .lit ":".data,
   .plus isDotClass true (some 3)]

/-- Run the title search and extract the three capture groups
(domain, identifier schema, identifier). -/
def titleGroups (title : String) : Option (String × String × String) :=
  match reSearch titlePattern title.data with
  | none => none
  | some caps =>
    some (⟨(caps.lookup 1).getD []⟩, ⟨(caps.lookup 2).getD []⟩,
      ⟨(caps.lookup 3).getD []⟩)

/-! ## Title validation (`_validate_title`) -/

/-- The fixed table of supported identifier schemas (`manager_map`). -/
def supportedSchemas : List String :=
  ["doi", "isbn", "pmid", "pmcid", "url", "wikidata", "wikipedia", "openalex"]

/-- The fixed instructional message returned when the title does not match
the basic format. -/
def titleFormatMsg : String :=
  "The title of the issue was not structured correctly. Please, follow this format: deposit \x7bdomain name of journal\x7d \x7bdoi or other supported identifier\x7d. For example \"deposit localhost:330 doi:10.1007/978-3-030-00668-6_8\". The following identifiers are currently supported: doi, isbn, pmid, pmcid, url, wikidata, wikipedia, and openalex"

/-- Failure message for an unsupported identifier schema (already
lowercased by the caller, as in the source). -/
def unsupportedSchemaMsg (schema : String) : String :=
  "The identifier schema \x27" ++ schema ++ "\x27 is not supported"

/-- Failure message for an identifier the external manager rejects. -/
def invalidIdMsg (ident schema : String) : String :=
  "The identifier with literal value " ++ ident ++
    " specified in the issue title is not a valid " ++ strToUpper schema

/-- `_validate_title`.  The external `oc_ds_converter` identifier managers
(`DOIManager.is_valid`, `ISBNManager.is_valid`, ...) are modelled by the
oracle `id_valid : schema → identifier → Bool`; whether a manager consults
a remote API (`use_api_service`) does not change the shape of the result.
The source runs `re.search` twice (once without the trailing capture
groups as `basic_format`, once with them); the two patterns accept exactly
the same titles, so a single search decides both. -/
def _validate_title (id_valid : String → String → Bool) (title : String) :
    Bool × String :=
  match titleGroups title with
  | none => (false, titleFormatMsg)
  | some (_domain, schemaRaw, ident) =>
    let schema := strToLower schemaRaw
    if supportedSchemas.contains schema then
      if id_valid schema ident then (true, "")
      else (false, invalidIdMsg ident schema)
    else (false, unsupportedSchemaMsg schema)

/-! ## Body validation (`validate`) -/

/-- The sentinel separator between the metadata and citations sections. -/
def sepToken : String := "===###===@@@==="

/-- The fixed instructional message posted when the separator is absent. -/
def sepMsg : String :=
  "Please use the separator \"===###===@@@===\" to divide metadata from citations, as shown in the following guide: https://github.com/opencitations/crowdsourcing/blob/main/README.md"

/-- The fixed message returned on successful validation. -/
def thankYouMsg : String :=
  "Thank you for your contribution! OpenCitations just processed the data you provided. The citations will soon be available on the [CROCI](https://opencitations.net/index/croci) index and metadata on OpenCitations Meta"

/-- Failure message produced when the validation machinery itself raises. -/
def validationErrorMsg (e : String) : String :=
  "Error validating data: " ++ e ++
    ". Please ensure both metadata and citations are valid CSVs following the required format."

/-- The environment of external collaborators seen by the triage pipeline:
`id_valid` models the identifier managers, `closure` models running
`oc_validator.ClosureValidator` on the two CSV sections (returning either
the raised exception's message, or the stripped contents of the metadata
and citations validation summary files, `""` standing for a summary that
is absent or empty, i.e. no errors), `user_id` models the result of
`get_user_id` for each author login, and `safe_list` models the lines of
`safe_list.txt` (`none` when the file does not exist). -/
structure Env where
  id_valid : String → String → Bool
  closure : String → String → Except String (String × String)
  user_id : String → Option Int
  safe_list : Option (List String)

/-- `validate`: title check, separator check, then delegation to the
external closure validator, assembling error messages exactly as the
source does (metadata errors first, a blank line, then citation errors). -/
def validate (env : Env) (issue_title issue_body : String) : Bool × String :=
  match _validate_title env.id_valid issue_title with
  | (false, m) => (false, m)
  | (true, _) =>
    if strContains issue_body sepToken then
      let parts := pySplit issue_body sepToken
      let metadata_csv := pyStrip (parts.getD 0 "")
      let citations_csv := pyStrip (parts.getD 1 "")
      match env.closure metadata_csv citations_csv with
      | .error e => (false, validationErrorMsg e)
      | .ok (metaSum, citsSum) =>
        let msgs :=
          (if metaSum ≠ "" then ["Metadata validation errors:", metaSum] else [])
          ++ (if citsSum ≠ "" then
                (if metaSum ≠ "" then [""] else [])
                ++ ["Citations validation errors:", citsSum]
              else [])
        if msgs.isEmpty then (true, thankYouMsg)
        else (false, joinWith "\n" msgs)
    else (false, sepMsg)

/-! ## Structured payload extraction (`get_data_to_store`) -/

/-- Rows produced by `csv.DictReader`: each data row is zipped with the
header row.  This models the `csv` module's behaviour on the plain,
unquoted comma-separated content the pipeline handles: the first line is
the header, blank lines yield no row (as `csv.reader` returns `[]` for
them and `DictReader` skips empty rows), and every other line becomes one
dictionary. -/
def csvDictRows (s : String) : List (List (String × String)) :=
  match pySplit s "\n" with
  | [] => []
  | header :: rows =>
    let hs := pySplit header ","
    (rows.filter (fun r => r ≠ "")).map (fun r => hs.zip (pySplit r ","))

/-- The provenance block of a stored payload. -/
structure Provenance where
  generatedAtTime : String
  wasAttributedTo : Option Int
  hadPrimarySource : String
deriving DecidableEq

/-- The data block of a stored payload. -/
structure PayloadData where
  title : String
  metadata : List (List (String × String))
  citations : List (List (String × String))
deriving DecidableEq

/-- One entry of the pending-deposit accumulator. -/
structure Payload where
  data : PayloadData
  provenance : Provenance
deriving DecidableEq

/-- `get_data_to_store`.  Every failure inside the `try` block is wrapped
into `ValueError(f"Failed to process issue data: {str(e)}")`; the two
inner failure modes are the tuple unpacking of the split (which needs the
separator to occur exactly once) and the explicit empty-section check.
`user_id` is an `Option Int` because `process_open_issues` passes the
(possibly absent) result of `get_user_id` straight through. -/
def get_data_to_store (issue_title issue_body created_at had_primary_source :
    String) (user_id : Option Int) : Except String Payload :=
  match (pySplit issue_body sepToken).map pyStrip with
  | [metadata_csv, citations_csv] =>
    let metadata := csvDictRows metadata_csv
    let citations := csvDictRows citations_csv
    if metadata.isEmpty || citations.isEmpty then
      .error "Failed to process issue data: Empty metadata or citations section"
    else
      .ok ⟨⟨issue_title, metadata, citations⟩,
        ⟨created_at, user_id, had_primary_source⟩⟩
  | [_] =>
    .error "Failed to process issue data: not enough values to unpack (expected 2, got 1)"
  | _ =>
    .error "Failed to process issue data: too many values to unpack (expected 2)"

/-! ## Safe list (`is_in_safe_list`) -/

/-- Python `str(user_id)` for the value `process_open_issues` passes in,
which is `None` when `get_user_id` found no identity. -/
def pyUidStr : Option Int → String
  | none => "None"
  | some i => toString i

/-- Membership of a string in the set of stripped lines of the safe-list
file; `none` models `safe_list.txt` not existing, which the source turns
into `False` via `except FileNotFoundError`. -/
def safeMember (file : Option (List String)) (s : String) : Bool :=
  match file with
  | none => false
  | some lines => lines.any (fun l => pyStrip l == s)

/-- `is_in_safe_list`: check `str(user_id)` against the stripped lines. -/
def is_in_safe_list (file : Option (List String)) (user_id : Int) : Bool :=
  safeMember file (toString user_id)

/-! ## Issue triage (`answer`, `process_open_issues`) -/

/-- One issue as returned by `get_open_issues`. -/
structure Issue where
  title : String
  body : String
  number : String
  authorLogin : String
  createdAt : String
  url : String
deriving DecidableEq

/-- The label `answer` attaches, determined by validation and
authorization exactly as in the source. -/
def answerLabel (is_valid is_authorized : Bool) : String :=
  if !is_authorized then "rejected"
  else if !is_valid then "invalid"
  else "to be processed"

/-- The observable side effect of one `answer` call: the label attached,
the comment posted, and the issue closed (closing carries no data). -/
structure AnswerRec where
  is_valid : Bool
  message : String
  issue_number : String
  is_authorized : Bool
  label : String
deriving DecidableEq

def mkAnswer (is_valid : Bool) (message issue_number : String)
    (is_authorized : Bool) : AnswerRec :=
  ⟨is_valid, message, issue_number, is_authorized,
    answerLabel is_valid is_authorized⟩

/-- The fixed rejection comment for users outside the safe list. -/
def rejectedMsg : String :=
  "To make a deposit, please contact OpenCitations at <contact@opencitations.net> to register as a trusted user"

/-- The body of the per-issue loop of `process_open_issues`: resolve the
author, check the safe list, validate, answer, and (only when valid)
attempt `get_data_to_store`, swallowing its exception.  Returns the
`answer` side effect and the payload appended to the accumulator, if
any. -/
def process_issue (env : Env) (i : Issue) : AnswerRec × Option Payload :=
  let uid := env.user_id i.authorLogin
  if !(safeMember env.safe_list (pyUidStr uid)) then
    (mkAnswer false rejectedMsg i.number false, none)
  else
    match validate env i.title i.body with
    | (is_valid, message) =>
      if is_valid then
        match get_data_to_store i.title i.body i.createdAt i.url uid with
        | .ok p => (mkAnswer true message i.number true, some p)
        | .error _ => (mkAnswer true message i.number true, none)
      else (mkAnswer false message i.number true, none)

/-- The loop of `process_open_issues` over a fetched issue list: issues
are triaged in order, each contributing one `answer` side effect, and the
accumulator collects the payloads of the issues whose validation and data
extraction both succeeded. -/
def process_open_issues (env : Env) : List Issue → List AnswerRec × List Payload
  | [] => ([], [])
  | i :: rest =>
    let (a, p) := process_issue env i
    let (as, ps) := process_open_issues env rest
    (a :: as, p.toList ++ ps)

/-! ## Resilient HTTP calls (`get_user_id`, `get_open_issues`, `answer`)

The retry loops are modelled over a trace `resp : Nat → _` giving the
outcome of the k-th HTTP attempt.  The clock starts at `now` and advances
only by the explicit sleeps; each model returns the function's result, the
list of sleep durations in order (`time.sleep` arguments, so a sleep of
`0` seconds is recorded when the source calls `time.sleep(0)`), and the
number of HTTP attempts actually made. -/

/-- Outcome of one attempt inside `get_user_id`: a 200 response whose JSON
`id` field is `id` (possibly absent), a 404, a 403 carrying the
`X-RateLimit-Remaining` header value `remaining` (`none` when the header
is absent) and `X-RateLimit-Reset` value `reset`, any other status code, a
read timeout, or a connection error. -/
inductive UserResp where
  | ok (id : Option Int)
  | notFound
  | forbidden (remaining : Option Int) (reset : Int)
  | other (status : Nat)
  | readTimeout
  | connError
deriving DecidableEq

/-- The loop of `get_user_id` (`for attempt in range(MAX_RETRIES)`), with
`fuel` the remaining iterations, `k` the index of the next attempt, `now`
the current clock, and `sleeps` the accumulated sleep durations in reverse
order. -/
def get_user_id_loop (resp : Nat → UserResp) :
    Nat → Nat → Int → List Int → Option Int × List Int × Nat
  | 0, k, _, sleeps => (none, sleeps.reverse, k)
  | fuel + 1, k, now, sleeps =>
    match resp k with
    | .ok i => (i, sleeps.reverse, k + 1)
    | .notFound => (none, sleeps.reverse, k + 1)
    | .forbidden (some rem) reset =>
      if rem == 0 then
        let st := max (reset - now) 0
        get_user_id_loop resp fuel (k + 1) (now + st) (st :: sleeps)
      else get_user_id_loop resp fuel (k + 1) now sleeps
    | .forbidden none _ => get_user_id_loop resp fuel (k + 1) now sleeps
    | .other _ => get_user_id_loop resp fuel (k + 1) now sleeps
    | .readTimeout => get_user_id_loop resp fuel (k + 1) now sleeps
    | .connError => get_user_id_loop resp fuel (k + 1) (now + 5) (5 :: sleeps)

/-- `get_user_id`: at most `MAX_RETRIES = 3` attempts; a 200 returns the
JSON `id`, a 404 returns `None`, a rate-limited 403 sleeps
`max(reset - now, 0)` and retries, any other response or a read timeout
retries immediately, a connection error sleeps `RETRY_DELAY = 5` and
retries, and exhaustion returns `None`. -/
def get_user_id (resp : Nat → UserResp) (now : Int) :
    Option Int × List Int × Nat :=
  get_user_id_loop resp 3 0 now []

/-- Outcome of one attempt inside `get_open_issues`: a 200 whose parsed
and re-shaped issue list is `issues`, a 404, a 403 with rate-limit
headers, any other status, or an exception
(`requests.RequestException` or `KeyError`) with message `msg`. -/
inductive IssuesResp where
  | ok (issues : List Issue)
  | notFound
  | forbidden (remaining : Option Int) (reset : Int)
  | other (status : Nat)
  | exc (msg : String)
deriving DecidableEq

/-- The loop of `get_open_issues`.  Unlike `get_user_id`, the rate-limit
path sleeps only when the reset time is still in the future, and the
exception handler re-raises `RuntimeError` on the last attempt instead of
returning; falling off the loop returns the empty list. -/
def get_open_issues_loop (resp : Nat → IssuesResp) :
    Nat → Nat → Int → List Int → Except String (List Issue) × List Int × Nat
  | 0, k, _, sleeps => (.ok [], sleeps.reverse, k)
  | fuel + 1, k, now, sleeps =>
    match resp k with
    | .ok issues => (.ok issues, sleeps.reverse, k + 1)
    | .notFound => (.ok [], sleeps.reverse, k + 1)
    | .forbidden (some rem) reset =>
      if rem == 0 then
        if now < reset then
          get_open_issues_loop resp fuel (k + 1) reset ((reset - now) :: sleeps)
        else get_open_issues_loop resp fuel (k + 1) now sleeps
      else get_open_issues_loop resp fuel (k + 1) now sleeps
    | .forbidden none _ => get_open_issues_loop resp fuel (k + 1) now sleeps
    | .other _ => get_open_issues_loop resp fuel (k + 1) now sleeps
    | .exc _ =>
      if fuel == 0 then
        (.error "Failed to fetch issues after 3 attempts", sleeps.reverse, k + 1)
      else get_open_issues_loop resp fuel (k + 1) (now + 5) (5 :: sleeps)

/-- `get_open_issues`: at most `MAX_RETRIES = 3` attempts; `.error`
models the `RuntimeError` raised when the last attempt also hits an
exception. -/
def get_open_issues (resp : Nat → IssuesResp) (now : Int) :
    Except String (List Issue) × List Int × Nat :=
  get_open_issues_loop resp 3 0 now []

/-- Outcome of one of the three tracker mutations inside `answer`
(label post, comment post, close patch): either the request returned
(whatever its status code — the source never checks it), or it raised a
`requests.RequestException` with message `msg`. -/
inductive CallOutcome where
  | success
  | failure (msg : String)
deriving DecidableEq

/-- The control flow of `answer`: the label call runs first and re-raises
on failure; then the comment and close calls run in one `try` block that
re-raises on failure (a comment failure skips the close).  No call is
retried. -/
def answer_run (o_label o_comment o_close : CallOutcome) : Except String Unit :=
  match o_label with
  | .failure e => .error e
  | .success =>
    match o_comment with
    | .failure e => .error e
    | .success =>
      match o_close with
      | .failure e => .error e
      | .success => .ok ()

/-- Prepend a fixed first attempt outcome to a `get_user_id` trace. -/
def consU (x : UserResp) (f : Nat → UserResp) : Nat → UserResp
  | 0 => x
  | n + 1 => f n

/-- Prepend a fixed first attempt outcome to a `get_open_issues` trace. -/
def consI (x : IssuesResp) (f : Nat → IssuesResp) : Nat → IssuesResp
  | 0 => x
  | n + 1 => f n

/-! ## The archive index (`ArchiveManager`)

The index file is a JSON object with insertion-ordered dictionaries
`github_reports` (filename → GitHub Pages URL) and `zenodo_reports`
(filename → {url, doi}) plus a `last_archive` timestamp.  Python
dictionaries are modelled as insertion-ordered association lists with the
dictionary operations the source uses (`d[k] = v`, `k in d`, `d.pop(k)`,
`d.keys()`). -/

/-- One `zenodo_reports` entry. -/
structure ZenodoEntry where
  url : String
  doi : String
deriving DecidableEq

/-- The persistent index state. -/
structure ArchiveIndex where
  github_reports : List (String × String)
  zenodo_reports : List (String × ZenodoEntry)
  last_archive : Option String
deriving DecidableEq

/-- Python `d[k] = v`: replace in place if the key exists, else append. -/
def dictSet (k : String) (v : α) : List (String × α) → List (String × α)
  | [] => [(k, v)]
  | (k2, v2) :: rest =>
    if k2 == k then (k, v) :: rest else (k2, v2) :: dictSet k v rest

/-- Python `k in d`. -/
def containsKey (k : String) : List (String × α) → Bool
  | [] => false
  | (k2, _) :: rest => k2 == k || containsKey k rest

/-- Python `d.pop(k)` (dropping the returned value): remove the entry. -/
def dictPop (k : String) : List (String × α) → List (String × α)
  | [] => []
  | (k2, v2) :: rest => if k2 == k then rest else (k2, v2) :: dictPop k rest

/-- Python `list(d.keys())` in insertion order. -/
def dictKeys (l : List (String × α)) : List String := l.map Prod.fst

/-- `add_report`: an unconditional upsert of the filename into the hot
mapping (the source performs `index_data["github_reports"][fn] = url` with
no check against `zenodo_reports`). -/
def add_report (report_filename github_url : String) (idx : ArchiveIndex) :
    ArchiveIndex :=
  { idx with github_reports :=
      dictSet report_filename github_url idx.github_reports }

/-- Stable insertion into a list sorted ascending by `key`. -/
def insertByKey (key : String → Int) (x : String) : List String → List String
  | [] => [x]
  | y :: ys => if key x ≤ key y then x :: y :: ys else y :: insertByKey key x ys

/-- Python `sorted(l, key=key)`: stable ascending sort. -/
def sortByKey (key : String → Int) (l : List String) : List String :=
  l.foldr (insertByKey key) []

/-- The sort key of `archive_reports`: the file creation time, or `0` when
the report file does not exist on disk (`ctime r = none`). -/
def reportKey (ctime : String → Option Int) (r : String) : Int :=
  (ctime r).getD 0

/-- The `zenodo_reports` entry built for one archived report. -/
def zenodoEntryFor (files_base_url deposition_id doi report : String) :
    ZenodoEntry :=
  ⟨files_base_url ++ "/records/" ++ deposition_id ++ "/files/" ++ report
      ++ "/content",
    "https://doi.org/" ++ doi⟩

/-- The index-update loop of `archive_reports`: each report is popped from
the hot mapping and upserted into the cold mapping in turn. -/
def migrate (entry : String → ZenodoEntry) :
    List String → List (String × String) → List (String × ZenodoEntry) →
    List (String × String) × List (String × ZenodoEntry)
  | [], gh, zr => (gh, zr)
  | r :: rs, gh, zr => migrate entry rs (dictPop r gh) (dictSet r (entry r) zr)

/-- A successful `archive_reports` run.  The Zenodo interaction (deposit
creation, uploads, publish) is external; its observable inputs are the
base URL, the deposition id and the DOI it returns, and `now_iso` is the
`datetime.now().isoformat()` timestamp.  When the hot mapping is empty the
source returns `None` without touching the index; otherwise every hot
report (sorted by file creation time) is migrated to the cold mapping,
the report files are deleted, and `last_archive` is updated.  A failure
before the final `_save_index` leaves the persisted index unchanged, so
the two reachable persisted states are `idx` itself and the result below. -/
def archive_reports (ctime : String → Option Int)
    (files_base_url deposition_id doi now_iso : String) (idx : ArchiveIndex) :
    Option String × ArchiveIndex :=
  let reports := sortByKey (reportKey ctime) (dictKeys idx.github_reports)
  if reports.isEmpty then (none, idx)
  else
    let st := migrate (zenodoEntryFor files_base_url deposition_id doi)
      reports idx.github_reports idx.zenodo_reports
    (some doi,
      { github_reports := st.1, zenodo_reports := st.2,
        last_archive := some now_iso })

/-- `needs_archival`: the hot mapping has reached the configured
`max_reports_before_archive` threshold. -/
def needs_archival (max_reports_before_archive : Nat) (idx : ArchiveIndex) :
    Bool :=
  decide (max_reports_before_archive ≤ idx.github_reports.length)

/-- No key occurs twice (every index reachable through `_init_index`,
`add_report` and `archive_reports` satisfies this, as JSON objects and
Python dictionaries cannot hold duplicate keys). -/
def nodupKeys : List (String × α) → Bool
  | [] => true
  | (k, _) :: rest => !(containsKey k rest) && nodupKeys rest

/-- The two filename mappings are disjoint. -/
def disjointIdx (idx : ArchiveIndex) : Bool :=
  (dictKeys idx.github_reports).all (fun k => !(containsKey k idx.zenodo_reports))

/-- Well-formedness of an index: both mappings are genuine dictionaries
and share no filename. -/
def indexWF (idx : ArchiveIndex) : Bool :=
  nodupKeys idx.github_reports && nodupKeys idx.zenodo_reports && disjointIdx idx

/-- Decidable equality for `Except`, used to evaluate the models at
concrete inputs. -/
instance [DecidableEq ε] [DecidableEq α] : DecidableEq (Except ε α) := fun x y =>
  match x, y with
  | .error a, .error b =>
    if h : a = b then .isTrue (by rw [h])
    else .isFalse (fun hc => h (Except.error.inj hc))
  | .ok a, .ok b =>
    if h : a = b then .isTrue (by rw [h])
    else .isFalse (fun hc => h (Except.ok.inj hc))
  | .error _, .ok _ => .isFalse (fun hc => Except.noConfusion hc)
  | .ok _, .error _ => .isFalse (fun hc => Except.noConfusion hc)

/-! ## Dictionary lemmas -/

theorem containsKey_eq_true_iff {k : String} {l : List (String × α)} :
    containsKey k l = true ↔ k ∈ dictKeys l := by
  induction l with
  | nil => simp [containsKey, dictKeys]
  | cons p rest ih =>
    obtain ⟨k3, v3⟩ := p
    simp only [containsKey, Bool.or_eq_true, beq_iff_eq, ih, dictKeys,
      List.map_cons, List.mem_cons]
    constructor
    · rintro (h | h)
      · exact Or.inl h.symm
      · exact Or.inr h
    · rintro (h | h)
      · exact Or.inl h.symm
      · exact Or.inr h

theorem containsKey_dictSet_iff {k ks : String} {v : α} {l : List (String × α)} :
    containsKey k (dictSet ks v l) = true ↔ ks = k ∨ containsKey k l = true := by
  induction l with
  | nil => simp [dictSet, containsKey]
  | cons p rest ih =>
    obtain ⟨k3, v3⟩ := p
    simp only [dictSet]
    split
    · next h =>
      have hk : k3 = ks := by simpa using h
      subst hk
      simp [containsKey]
    · next h =>
      simp only [containsKey, Bool.or_eq_true, ih, beq_iff_eq]
      tauto

theorem containsKey_dictPop_imp {k r : String} {l : List (String × α)}
    (h : containsKey k (dictPop r l) = true) : containsKey k l = true := by
  induction l with
  | nil => simpa [dictPop] using h
  | cons p rest ih =>
    obtain ⟨k3, v3⟩ := p
    simp only [dictPop] at h
    split at h
    · simp [containsKey, h]
    · simp only [containsKey, Bool.or_eq_true] at h ⊢
      rcases h with h | h
      · exact Or.inl h
      · exact Or.inr (ih h)

theorem nodupKeys_cons_iff {k : String} {v : α} {l : List (String × α)} :
    nodupKeys ((k, v) :: l) = true ↔
      containsKey k l = false ∧ nodupKeys l = true := by
  simp [nodupKeys, Bool.and_eq_true, Bool.not_eq_true']

theorem nodupKeys_dictPop {r : String} {l : List (String × α)}
    (h : nodupKeys l = true) : nodupKeys (dictPop r l) = true := by
  induction l with
  | nil => simpa [dictPop] using h
  | cons p rest ih =>
    obtain ⟨k3, v3⟩ := p
    rw [nodupKeys_cons_iff] at h
    simp only [dictPop]
    split
    · exact h.2
    · rw [nodupKeys_cons_iff]
      refine ⟨?_, ih h.2⟩
      by_cases hc : containsKey k3 (dictPop r rest) = true
      · exact absurd (containsKey_dictPop_imp hc) (by simp [h.1])
      · simpa using hc

theorem containsKey_dictPop_self {r : String} {l : List (String × α)}
    (h : nodupKeys l = true) : containsKey r (dictPop r l) = false := by
  induction l with
  | nil => simp [dictPop, containsKey]
  | cons p rest ih =>
    obtain ⟨k3, v3⟩ := p
    rw [nodupKeys_cons_iff] at h
    simp only [dictPop]
    split
    · next heq =>
      have : k3 = r := by simpa using heq
      subst this
      exact h.1
    · next hne =>
      simp only [containsKey, Bool.or_eq_true]
      rw [Bool.or_eq_false_iff]
      exact ⟨by simpa using hne, ih h.2⟩

theorem nodupKeys_dictSet {k : String} {v : α} {l : List (String × α)} :
    nodupKeys (dictSet k v l) = nodupKeys l := by
  induction l with
  | nil => simp [dictSet, nodupKeys, containsKey]
  | cons p rest ih =>
    obtain ⟨k3, v3⟩ := p
    simp only [dictSet]
    split
    · next h =>
      have hk : k3 = k := by simpa using h
      subst hk
      simp [nodupKeys]
    · next h =>
      simp only [nodupKeys, ih]
      congr 1
      congr 1
      by_cases hc : containsKey k3 (dictSet k v rest) = true
      · rcases containsKey_dictSet_iff.mp hc with h1 | h1
        · exact absurd h1.symm (by simpa using h)
        · simp [hc, h1]
      · have hrest : containsKey k3 rest = false := by
          by_cases hr : containsKey k3 rest = true
          · exact absurd (containsKey_dictSet_iff.mpr (Or.inr hr)) hc
          · simpa using hr
        simp only [Bool.not_eq_true] at hc
        rw [hc, hrest]

/-! ## Sort and migration lemmas -/

theorem mem_insertByKey {key : String → Int} {x y : String} {l : List String} :
    y ∈ insertByKey key x l ↔ y = x ∨ y ∈ l := by
  induction l with
  | nil => simp [insertByKey]
  | cons z zs ih =>
    simp only [insertByKey]
    split
    · simp
    · simp only [List.mem_cons, ih]
      tauto

theorem mem_sortByKey {key : String → Int} {x : String} {l : List String}
    (h : x ∈ l) : x ∈ sortByKey key l := by
  induction l with
  | nil => simp at h
  | cons a as ih =>
    simp only [sortByKey, List.foldr_cons]
    rw [mem_insertByKey]
    rcases List.mem_cons.mp h with h1 | h1
    · exact Or.inl h1
    · exact Or.inr (ih h1)

theorem insertByKey_ne_nil {key : String → Int} {x : String} {l : List String} :
    insertByKey key x l ≠ [] := by
  cases l with
  | nil => simp [insertByKey]
  | cons z zs =>
    simp only [insertByKey]
    split <;> simp

theorem sortByKey_eq_nil {key : String → Int} {l : List String}
    (h : sortByKey key l = []) : l = [] := by
  cases l with
  | nil => rfl
  | cons a as =>
    simp only [sortByKey, List.foldr_cons] at h
    exact absurd h insertByKey_ne_nil

theorem migrate_fst_nil (entry : String → ZenodoEntry) :
    ∀ (reports : List String) (gh : List (String × String))
      (zr : List (String × ZenodoEntry)),
      nodupKeys gh = true →
      (∀ k, containsKey k gh = true → k ∈ reports) →
      (migrate entry reports gh zr).1 = [] := by
  intro reports
  induction reports with
  | nil =>
    intro gh zr _ hcov
    cases gh with
    | nil => rfl
    | cons p rest =>
      exact absurd (hcov p.1 (by simp [containsKey])) (by simp)
  | cons r rs ih =>
    intro gh zr hnd hcov
    simp only [migrate]
    apply ih
    · exact nodupKeys_dictPop hnd
    · intro k hk
      rcases List.mem_cons.mp (hcov k (containsKey_dictPop_imp hk)) with h1 | h1
      · subst h1
        exact absurd hk (by simp [containsKey_dictPop_self hnd])
      · exact h1

theorem migrate_snd_mem (entry : String → ZenodoEntry) :
    ∀ (reports : List String) (gh : List (String × String))
      (zr : List (String × ZenodoEntry)) (k : String),
      containsKey k zr = true →
      containsKey k (migrate entry reports gh zr).2 = true := by
  intro reports
  induction reports with
  | nil => intro gh zr k h; exact h
  | cons r rs ih =>
    intro gh zr k h
    simp only [migrate]
    exact ih _ _ k (containsKey_dictSet_iff.mpr (Or.inr h))

theorem migrate_snd_nodup (entry : String → ZenodoEntry) :
    ∀ (reports : List String) (gh : List (String × String))
      (zr : List (String × ZenodoEntry)),
      nodupKeys zr = true →
      nodupKeys (migrate entry reports gh zr).2 = true := by
  intro reports
  induction reports with
  | nil => intro gh zr h; exact h
  | cons r rs ih =>
    intro gh zr h
    simp only [migrate]
    exact ih _ _ (by rw [nodupKeys_dictSet]; exact h)

/-! ## Archive-level lemmas -/

theorem archive_github_empty (ctime : String → Option Int)
    (b d doi ts : String) (idx : ArchiveIndex)
    (hnd : nodupKeys idx.github_reports = true) :
    (archive_reports ctime b d doi ts idx).2.github_reports = [] := by
  unfold archive_reports
  by_cases h :
      (sortByKey (reportKey ctime) (dictKeys idx.github_reports)).isEmpty = true
  · rw [if_pos h]
    have : dictKeys idx.github_reports = [] :=
      sortByKey_eq_nil (List.isEmpty_iff.mp h)
    exact List.map_eq_nil_iff.mp this
  · rw [if_neg h]
    exact migrate_fst_nil _ _ _ _ hnd
      (fun k hk => mem_sortByKey (containsKey_eq_true_iff.mp hk))

theorem archive_zenodo_mono (ctime : String → Option Int)
    (b d doi ts : String) (idx : ArchiveIndex) (k : String)
    (h : containsKey k idx.zenodo_reports = true) :
    containsKey k (archive_reports ctime b d doi ts idx).2.zenodo_reports
      = true := by
  unfold archive_reports
  by_cases hrep :
      (sortByKey (reportKey ctime) (dictKeys idx.github_reports)).isEmpty = true
  · rw [if_pos hrep]; exact h
  · rw [if_neg hrep]; exact migrate_snd_mem _ _ _ _ k h

theorem archive_zenodo_nodup (ctime : String → Option Int)
    (b d doi ts : String) (idx : ArchiveIndex)
    (hnd : nodupKeys idx.zenodo_reports = true) :
    nodupKeys (archive_reports ctime b d doi ts idx).2.zenodo_reports
      = true := by
  unfold archive_reports
  by_cases hrep :
      (sortByKey (reportKey ctime) (dictKeys idx.github_reports)).isEmpty = true
  · rw [if_pos hrep]; exact hnd
  · rw [if_neg hrep]; exact migrate_snd_nodup _ _ _ _ hnd

theorem disjointIdx_iff {idx : ArchiveIndex} :
    disjointIdx idx = true ↔
      ∀ k, containsKey k idx.github_reports = true →
        containsKey k idx.zenodo_reports = false := by
  unfold disjointIdx
  rw [List.all_eq_true]
  constructor
  · intro h k hk
    have := h k (containsKey_eq_true_iff.mp hk)
    simpa using this
  · intro h k hk
    have := h k (containsKey_eq_true_iff.mpr hk)
    simpa using this

/-! ## Triage lemmas -/

theorem validate_true_msg {env : Env} {t b m : String}
    (h : validate env t b = (true, m)) : m = thankYouMsg := by
  unfold validate at h
  split at h
  · exact absurd h (by simp)
  · split at h
    · dsimp only at h
      rcases hc : env.closure (pyStrip ((pySplit b sepToken).getD 0 ""))
          (pyStrip ((pySplit b sepToken).getD 1 "")) with e | ⟨ms, cs⟩ <;>
        rw [hc] at h
      · exact absurd h (by simp)
      · dsimp only at h
        by_cases hms : ms = "" <;> by_cases hcs : cs = "" <;>
          simp [hms, hcs] at h
        exact h.symm
    · exact absurd h (by simp)

theorem get_data_ok_prov {t b c u : String} {uid : Option Int} {p : Payload}
    (h : get_data_to_store t b c u uid = .ok p) :
    p.provenance = ⟨c, uid, u⟩ ∧ p.data.title = t := by
  unfold get_data_to_store at h
  split at h
  · dsimp only at h
    split at h
    · exact absurd h (by simp)
    · have := Except.ok.inj h
      subst this
      exact ⟨rfl, rfl⟩
  · exact absurd h (by simp)
  · exact absurd h (by simp)

/-! ## Retry-loop lemmas -/

theorem get_user_id_loop_succ (resp : Nat → UserResp) (fuel k : Nat) (now : Int)
    (sleeps : List Int) :
    get_user_id_loop resp (fuel + 1) k now sleeps =
      match resp k with
      | .ok i => (i, sleeps.reverse, k + 1)
      | .notFound => (none, sleeps.reverse, k + 1)
      | .forbidden (some rem) reset =>
        if rem == 0 then
          get_user_id_loop resp fuel (k + 1) (now + max (reset - now) 0)
            (max (reset - now) 0 :: sleeps)
        else get_user_id_loop resp fuel (k + 1) now sleeps
      | .forbidden none _ => get_user_id_loop resp fuel (k + 1) now sleeps
      | .other _ => get_user_id_loop resp fuel (k + 1) now sleeps
      | .readTimeout => get_user_id_loop resp fuel (k + 1) now sleeps
      | .connError => get_user_id_loop resp fuel (k + 1) (now + 5) (5 :: sleeps) := rfl

/-- Every path of the `get_user_id` loop, the rate-limit path included,
consumes one iteration of `for attempt in range(MAX_RETRIES)`, so the
number of HTTP attempts is bounded by the remaining fuel. -/
theorem get_user_id_loop_reqs (resp : Nat → UserResp) :
    ∀ (fuel k : Nat) (now : Int) (sleeps : List Int),
      (get_user_id_loop resp fuel k now sleeps).2.2 ≤ k + fuel := by
  intro fuel
  induction fuel with
  | zero => intro k now sleeps; simp [get_user_id_loop]
  | succ n ih =>
    intro k now sleeps
    rw [get_user_id_loop_succ]
    cases hr : resp k with
    | ok i => simp
    | notFound => simp
    | forbidden rem reset =>
      cases rem with
      | none => exact le_trans (ih (k + 1) now sleeps) (by omega)
      | some v =>
        dsimp only
        by_cases hv : (v == 0) = true
        · rw [if_pos hv]
          exact le_trans (ih (k + 1) _ _) (by omega)
        · rw [if_neg hv]
          exact le_trans (ih (k + 1) now sleeps) (by omega)
    | other s => exact le_trans (ih (k + 1) now sleeps) (by omega)
    | readTimeout => exact le_trans (ih (k + 1) now sleeps) (by omega)
    | connError => exact le_trans (ih (k + 1) _ _) (by omega)

theorem get_open_issues_loop_succ (resp : Nat → IssuesResp) (fuel k : Nat)
    (now : Int) (sleeps : List Int) :
    get_open_issues_loop resp (fuel + 1) k now sleeps =
      match resp k with
      | .ok issues => (.ok issues, sleeps.reverse, k + 1)
      | .notFound => (.ok [], sleeps.reverse, k + 1)
      | .forbidden (some rem) reset =>
        if rem == 0 then
          if now < reset then
            get_open_issues_loop resp fuel (k + 1) reset ((reset - now) :: sleeps)
          else get_open_issues_loop resp fuel (k + 1) now sleeps
        else get_open_issues_loop resp fuel (k + 1) now sleeps
      | .forbidden none _ => get_open_issues_loop resp fuel (k + 1) now sleeps
      | .other _ => get_open_issues_loop resp fuel (k + 1) now sleeps
      | .exc _ =>
        if fuel == 0 then
          (.error "Failed to fetch issues after 3 attempts", sleeps.reverse, k + 1)
        else get_open_issues_loop resp fuel (k + 1) (now + 5) (5 :: sleeps) := rfl

/-- The `get_open_issues` loop also bounds its attempts by the fuel on
every path, the rate-limit path included. -/
theorem get_open_issues_loop_reqs (resp : Nat → IssuesResp) :
    ∀ (fuel k : Nat) (now : Int) (sleeps : List Int),
      (get_open_issues_loop resp fuel k now sleeps).2.2 ≤ k + fuel := by
  intro fuel
  induction fuel with
  | zero => intro k now sleeps; simp [get_open_issues_loop]
  | succ n ih =>
    intro k now sleeps
    rw [get_open_issues_loop_succ]
    cases hr : resp k with
    | ok issues => simp
    | notFound => simp
    | forbidden rem reset =>
      cases rem with
      | none => exact le_trans (ih (k + 1) now sleeps) (by omega)
      | some v =>
        dsimp only
        by_cases hv : (v == 0) = true
        · rw [if_pos hv]
          by_cases hn : now < reset
          · rw [if_pos hn]
            exact le_trans (ih (k + 1) _ _) (by omega)
          · rw [if_neg hn]
            exact le_trans (ih (k + 1) now sleeps) (by omega)
        · rw [if_neg hv]
          exact le_trans (ih (k + 1) now sleeps) (by omega)
    | other s => exact le_trans (ih (k + 1) now sleeps) (by omega)
    | exc m =>
      dsimp only
      by_cases hf : (n == 0) = true
      · rw [if_pos hf]; simp
      · rw [if_neg hf]
        exact le_trans (ih (k + 1) _ _) (by omega)

/-! ## Concrete fixtures used by witnesses and counterexamples -/

/-- An environment in which every identifier is valid, the closure
validator reports no errors, every login resolves to identity 42, and the
safe list authorizes exactly identity 42. -/
def oracleEnv : Env :=
  { id_valid := fun _ _ => true
    closure := fun _ _ => .ok ("", "")
    user_id := fun _ => some 42
    safe_list := some ["42"] }

/-- A fully well-formed issue: valid title and two non-empty sections. -/
def goodIssue : Issue :=
  { title := "deposit localhost:330 doi:10.1007/978-3-030-00668-6_8"
    body := "id,title\ndoi:10.1/a,Some Title\n===###===@@@===\nciting_id,cited_id\ndoi:10.1/a,doi:10.1/b"
    number := "1"
    authorLogin := "alice"
    createdAt := "2026-01-01T00:00:00Z"
    url := "https://github.com/opencitations/crowdsourcing/issues/1" }

/-- The payload `get_data_to_store` builds for `goodIssue`. -/
def goodPayload : Payload :=
  ⟨⟨goodIssue.title,
    [[("id", "doi:10.1/a"), ("title", "Some Title")]],
    [[("citing_id", "doi:10.1/a"), ("cited_id", "doi:10.1/b")]]⟩,
   ⟨"2026-01-01T00:00:00Z", some 42,
    "https://github.com/opencitations/crowdsourcing/issues/1"⟩⟩

/-- An issue whose two sections hold only a header row, so both parse to
zero data rows. -/
def emptySectionIssue : Issue :=
  { title := "deposit localhost:330 doi:10.1007/978-3-030-00668-6_8"
    body := "id,title\n===###===@@@===\nciting_id,cited_id"
    number := "7"
    authorLogin := "alice"
    createdAt := "2026-01-01T00:00:00Z"
    url := "https://github.com/opencitations/crowdsourcing/issues/7" }

/-- An issue whose body contains the sentinel separator twice. -/
def doubleSepIssue : Issue :=
  { title := "deposit localhost:330 doi:10.1007/978-3-030-00668-6_8"
    body := "id,title\ndoi:10.1/a,T\n===###===@@@===\nciting_id,cited_id\ndoi:10.1/a,doi:10.1/b\n===###===@@@===\nextra"
    number := "9"
    authorLogin := "alice"
    createdAt := "2026-01-01T00:00:00Z"
    url := "https://github.com/opencitations/crowdsourcing/issues/9" }

/-- An index whose only report is already archived (cold). -/
def coldOnlyIdx : ArchiveIndex :=
  ⟨[],
   [("validation_issue_7.html",
     ⟨"https://zenodo.org/records/1/files/validation_issue_7.html/content",
      "https://doi.org/10.5281/zenodo.1"⟩)],
   none⟩

/-- An index with one hot report and one cold report. -/
def mixedIdx : ArchiveIndex :=
  ⟨[("validation_issue_2.html",
     "https://opencitations.github.io/crowdsourcing/validation_issue_2.html")],
   [("validation_issue_1.html",
     ⟨"https://zenodo.org/records/10/files/validation_issue_1.html/content",
      "https://doi.org/10.5281/zenodo.10"⟩)],
   none⟩

/-- An index with two hot reports and no cold ones. -/
def hotIdx : ArchiveIndex :=
  ⟨[("validation_issue_3.html", "u3"), ("validation_issue_4.html", "u4")],
   [], none⟩

/-- A trace in which the first three attempts are rate-limited 403s whose
reset time (970) already lies in the past of the start clock (1000), and
every later attempt is a 200 carrying identity 42. -/
def rateLimitTrace : Nat → UserResp := fun k =>
  if k < 3 then .forbidden (some 0) 970 else .ok (some 42)

/-! ## Claim C1 -/

/-- Claim C1 as stated is false: `add_report` is an unconditional upsert
into the hot mapping with no check against the cold mapping, so calling it
with a filename that is already archived (here `validation_issue_7.html`,
cold in the well-formed index `coldOnlyIdx`) leaves the filename in both
mappings at once, violating disjointness, and brings a cold filename back
into the hot mapping, violating one-way migration. -/
theorem C1_counterexample :
    indexWF coldOnlyIdx = true
    ∧ containsKey "validation_issue_7.html" coldOnlyIdx.zenodo_reports = true
    ∧ containsKey "validation_issue_7.html"
        (add_report "validation_issue_7.html"
          "https://opencitations.github.io/crowdsourcing/validation_issue_7.html"
          coldOnlyIdx).github_reports = true
    ∧ containsKey "validation_issue_7.html"
        (add_report "validation_issue_7.html"
          "https://opencitations.github.io/crowdsourcing/validation_issue_7.html"
          coldOnlyIdx).zenodo_reports = true
    ∧ disjointIdx
        (add_report "validation_issue_7.html"
          "https://opencitations.github.io/crowdsourcing/validation_issue_7.html"
          coldOnlyIdx) = false := by
  decide

/-- Claim C1, amended: the index operations preserve disjointness with one
proviso the code does not enforce — `add_report` preserves it only when the
added filename is not already in the cold mapping.  `archive_reports`
preserves well-formedness unconditionally, never moves a filename out of
the cold mapping, and leaves no filename in the hot mapping, so migration
through `archive_reports` alone is one-way. -/
theorem C1_index_disjointness (idx : ArchiveIndex) (f u : String)
    (ctime : String → Option Int) (b d doi ts : String) :
    (indexWF idx = true → containsKey f idx.zenodo_reports = false →
      indexWF (add_report f u idx) = true)
    ∧ (indexWF idx = true →
      indexWF (archive_reports ctime b d doi ts idx).2 = true)
    ∧ (containsKey f idx.zenodo_reports = true →
      containsKey f (archive_reports ctime b d doi ts idx).2.zenodo_reports
        = true)
    ∧ (nodupKeys idx.github_reports = true →
      containsKey f (archive_reports ctime b d doi ts idx).2.github_reports
        = false) := by
  refine ⟨?_, ?_, ?_, ?_⟩
  · intro hwf hf
    obtain ⟨⟨h1, h2⟩, h3⟩ : (nodupKeys idx.github_reports = true
        ∧ nodupKeys idx.zenodo_reports = true) ∧ disjointIdx idx = true := by
      simpa [indexWF, Bool.and_eq_true] using hwf
    have hdj : disjointIdx (add_report f u idx) = true := by
      rw [disjointIdx_iff]
      intro k hk
      rcases containsKey_dictSet_iff.mp hk with h | h
      · subst h; exact hf
      · exact disjointIdx_iff.mp h3 k h
    simp [indexWF, Bool.and_eq_true, add_report, nodupKeys_dictSet, h1, h2]
    simpa [add_report] using hdj
  · intro hwf
    obtain ⟨⟨h1, h2⟩, h3⟩ : (nodupKeys idx.github_reports = true
        ∧ nodupKeys idx.zenodo_reports = true) ∧ disjointIdx idx = true := by
      simpa [indexWF, Bool.and_eq_true] using hwf
    have hge := archive_github_empty ctime b d doi ts idx h1
    have hdj : disjointIdx (archive_reports ctime b d doi ts idx).2 = true := by
      rw [disjointIdx_iff]
      intro k hk
      rw [hge] at hk
      simp [containsKey] at hk
    simp [indexWF, Bool.and_eq_true, hge,
      archive_zenodo_nodup ctime b d doi ts idx h2, hdj, nodupKeys]
  · exact archive_zenodo_mono ctime b d doi ts idx f
  · intro hnd
    rw [archive_github_empty ctime b d doi ts idx hnd]
    simp [containsKey]

/-- Witness for C1, applying the amended theorem at concrete indices: a
fresh filename added alongside an archived one keeps the index well
formed, and archiving `mixedIdx` keeps it well formed, keeps
`validation_issue_1.html` cold, and leaves the hot mapping without it. -/
theorem C1_index_disjointness_witness :
    indexWF (add_report "validation_issue_3.html" "u3" mixedIdx) = true
    ∧ indexWF (archive_reports (fun _ => none) "https://zenodo.org/api" "11"
        "10.5281/zenodo.11" "2026-02-01T00:00:00" mixedIdx).2 = true
    ∧ containsKey "validation_issue_1.html"
        (archive_reports (fun _ => none) "https://zenodo.org/api" "11"
          "10.5281/zenodo.11" "2026-02-01T00:00:00" mixedIdx).2.zenodo_reports
        = true
    ∧ containsKey "validation_issue_1.html"
        (archive_reports (fun _ => none) "https://zenodo.org/api" "11"
          "10.5281/zenodo.11" "2026-02-01T00:00:00" mixedIdx).2.github_reports
        = false :=
  ⟨(C1_index_disjointness mixedIdx "validation_issue_3.html" "u3"
      (fun _ => none) "https://zenodo.org/api" "11" "10.5281/zenodo.11"
      "2026-02-01T00:00:00").1 (by decide) (by decide),
   (C1_index_disjointness mixedIdx "validation_issue_3.html" "u3"
      (fun _ => none) "https://zenodo.org/api" "11" "10.5281/zenodo.11"
      "2026-02-01T00:00:00").2.1 (by decide),
   (C1_index_disjointness mixedIdx "validation_issue_1.html" "u3"
      (fun _ => none) "https://zenodo.org/api" "11" "10.5281/zenodo.11"
      "2026-02-01T00:00:00").2.2.1 (by decide),
   (C1_index_disjointness mixedIdx "validation_issue_1.html" "u3"
      (fun _ => none) "https://zenodo.org/api" "11" "10.5281/zenodo.11"
      "2026-02-01T00:00:00").2.2.2 (by decide)⟩

/-! ## Claim C2 -/

/-- Claim C2 as stated is false: the rate-limit `continue` sits inside
`for attempt in range(MAX_RETRIES)`, so each rate-limited 403 consumes one
of the 3 attempts.  With three consecutive 403/remaining=0 responses
(reset 970 already in the past of the start clock 1000) followed by a 200
carrying identity 42, the claim predicts the loop keeps retrying until the
quota clears and returns 42; the code instead exhausts its 3 attempts on
the three 403s (sleeping `max(970 - now, 0) = 0` seconds each time), never
issues the fourth request, and returns `None`. -/
theorem C2_counterexample :
    get_user_id rateLimitTrace 1000 = (none, [0, 0, 0], 3) := by decide

/-- Claim C2, amended: a 403 with remaining=0 makes `get_user_id` sleep
`max(resetEpoch - now, 0)` seconds (so a reset already in the past gives a
zero-second sleep) and retry, and makes `get_open_issues` sleep
`resetEpoch - now` only when the reset is still in the future and retry;
but this retry consumes the same bounded budget of 3 attempts used for
connection and timeout failures, so neither function ever makes more than
3 HTTP attempts, whatever the server reports. -/
theorem C2_rate_limit_retry (r t : Int) (uid : Option Int)
    (restU resp : Nat → UserResp) (restI respI : Nat → IssuesResp)
    (issues : List Issue) :
    (get_user_id (consU (.forbidden (some 0) r) (consU (.ok uid) restU)) t
      = (uid, [max (r - t) 0], 2))
    ∧ (get_open_issues (consI (.forbidden (some 0) r) (consI (.ok issues) restI)) t
      = (.ok issues, if t < r then [r - t] else [], 2))
    ∧ (get_user_id resp t).2.2 ≤ 3
    ∧ (get_open_issues respI t).2.2 ≤ 3 := by
  refine ⟨rfl, ?_, get_user_id_loop_reqs resp 3 0 t [],
    get_open_issues_loop_reqs respI 3 0 t []⟩
  by_cases h : t < r <;>
    simp [get_open_issues, get_open_issues_loop, consI, h]

/-! ## Claim C3 -/

/-- Claim C3 as stated is false for `get_open_issues`: its exception
handler re-raises on the last attempt
(`raise RuntimeError(f"Failed to fetch issues after {MAX_RETRIES} attempts")`),
so three consecutive connection failures on this read path produce an
exception, not an empty list (the source's own test
`test_network_error_retry` asserts exactly this `RuntimeError`).  The
model returns the raised error after sleeping 5 seconds twice. -/
theorem C3_counterexample :
    get_open_issues (fun _ => .exc "Network error") 0
      = (.error "Failed to fetch issues after 3 attempts", [5, 5], 3) := by
  decide

/-- Claim C3, amended: three consecutive connection failures make the read
path `get_user_id` return `None` without raising (sleeping 5 seconds
before each retry), make the read path `get_open_issues` raise
`RuntimeError` on the third failure, and make the write path `answer`
re-raise a connection failure of any of its three calls (label, comment,
close) to the caller. -/
theorem C3_failure_asymmetry (restU : Nat → UserResp) (restI : Nat → IssuesResp)
    (t : Int) (e e2 e3 : String) (o2 o3 : CallOutcome) :
    (get_user_id (consU .connError (consU .connError (consU .connError restU))) t
      = (none, [5, 5, 5], 3))
    ∧ (get_open_issues (consI (.exc e) (consI (.exc e2) (consI (.exc e3) restI))) t
      = (.error "Failed to fetch issues after 3 attempts", [5, 5], 3))
    ∧ answer_run (.failure e) o2 o3 = .error e
    ∧ answer_run .success (.failure e) o3 = .error e
    ∧ answer_run .success .success (.failure e) = .error e := by
  refine ⟨rfl, rfl, rfl, ?_, ?_⟩
  · cases o3 <;> rfl
  · rfl

/-! ## Claim C4 -/

/-- Claim C4 as stated is false: the only in-repository empty-section
check lives in `get_data_to_store`, which `process_open_issues` calls only
after `answer` has already been invoked with the verdict of `validate`,
and `validate` delegates the body entirely to the external closure
validator.  For `emptySectionIssue` — valid title, separator present, and
both sections parsing to zero rows — with a closure validator that reports
no errors, the triage outcome is acceptance (label "to be processed",
thank-you comment), not a validation failure; only the payload is silently
dropped. -/
theorem C4_counterexample :
    validate oracleEnv emptySectionIssue.title emptySectionIssue.body
      = (true, thankYouMsg)
    ∧ csvDictRows (pyStrip ((pySplit emptySectionIssue.body sepToken).getD 0 ""))
      = []
    ∧ csvDictRows (pyStrip ((pySplit emptySectionIssue.body sepToken).getD 1 ""))
      = []
    ∧ process_issue oracleEnv emptySectionIssue
      = (⟨true, thankYouMsg, "7", true, "to be processed"⟩, none) := by
  decide

/-- Claim C4, amended: when either section is empty after tabular parsing,
`get_data_to_store` raises `ValueError` and no payload is appended, but
the issue's triage answer is whatever `validate` already returned — in
particular, when validation succeeded (the external closure validator
reported no errors), the issue is answered as accepted, not as invalid. -/
theorem C4_empty_sections (env : Env) (i : Issue) (msg m c : String)
    (hauth : safeMember env.safe_list (pyUidStr (env.user_id i.authorLogin))
      = true)
    (hv : validate env i.title i.body = (true, msg))
    (hsplit : (pySplit i.body sepToken).map pyStrip = [m, c])
    (hempty : csvDictRows m = [] ∨ csvDictRows c = []) :
    get_data_to_store i.title i.body i.createdAt i.url
      (env.user_id i.authorLogin)
      = .error "Failed to process issue data: Empty metadata or citations section"
    ∧ process_issue env i = (mkAnswer true msg i.number true, none) := by
  have hgd : get_data_to_store i.title i.body i.createdAt i.url
      (env.user_id i.authorLogin)
      = .error "Failed to process issue data: Empty metadata or citations section" := by
    unfold get_data_to_store
    rw [hsplit]
    dsimp only
    rw [if_pos (by rcases hempty with h | h <;> simp [h])]
  refine ⟨hgd, ?_⟩
  simp [process_issue, hauth, hv, hgd]

/-- Witness for the amended C4 at `emptySectionIssue`. -/
theorem C4_empty_sections_witness :
    get_data_to_store emptySectionIssue.title emptySectionIssue.body
      emptySectionIssue.createdAt emptySectionIssue.url
      (oracleEnv.user_id emptySectionIssue.authorLogin)
      = .error "Failed to process issue data: Empty metadata or citations section"
    ∧ process_issue oracleEnv emptySectionIssue
      = (mkAnswer true thankYouMsg emptySectionIssue.number true, none) :=
  C4_empty_sections oracleEnv emptySectionIssue thankYouMsg
    "id,title" "citing_id,cited_id"
    (by decide) (by decide) (by decide) (Or.inl (by decide))

/-! ## Claim C5 -/

/-- Claim C5: for an authorized author whose identity `get_user_id`
resolved, a title the identifier manager accepts and a body whose two
sections are non-empty and pass the closure validator, `validate` succeeds
with the fixed thank-you message (which contains
"Thank you for your contribution"), and processing the issue appends
exactly one payload whose `provenance.wasAttributedTo` is the resolved
identity. -/
theorem C5_success_payload (env : Env) (i : Issue) (uid : Int) (msg : String)
    (p : Payload)
    (hu : env.user_id i.authorLogin = some uid)
    (hs : is_in_safe_list env.safe_list uid = true)
    (hv : validate env i.title i.body = (true, msg))
    (hd : get_data_to_store i.title i.body i.createdAt i.url (some uid)
      = .ok p) :
    strContains msg "Thank you for your contribution" = true
    ∧ process_open_issues env [i] = ([mkAnswer true msg i.number true], [p])
    ∧ p.provenance.wasAttributedTo = some uid := by
  have hmsg := validate_true_msg hv
  subst hmsg
  have hsm : safeMember env.safe_list (pyUidStr (some uid)) = true := hs
  refine ⟨by decide, ?_, ?_⟩
  · simp [process_open_issues, process_issue, hsm, hu, hv, hd]
  · rw [(get_data_ok_prov hd).1]

/-- Witness for C5 at `goodIssue` in `oracleEnv`. -/
theorem C5_success_payload_witness :
    strContains thankYouMsg "Thank you for your contribution" = true
    ∧ process_open_issues oracleEnv [goodIssue]
      = ([mkAnswer true thankYouMsg goodIssue.number true], [goodPayload])
    ∧ goodPayload.provenance.wasAttributedTo = some 42 :=
  C5_success_payload oracleEnv goodIssue 42 thankYouMsg goodPayload
    (by decide) (by decide) (by decide) (by decide)

/-! ## Claim C6 -/

/-- Claim C6: `needs_archival` is true exactly when the hot mapping's size
has reached the configured threshold, and since `archive_reports` migrates
every hot report, it is false immediately after any `archive_reports` run
whenever the threshold is positive (so in particular after any run that
drains the hot mapping below the threshold). -/
theorem C6_needs_archival (n : Nat) (idx : ArchiveIndex)
    (ctime : String → Option Int) (b d doi ts : String) :
    (needs_archival n idx = true ↔ n ≤ idx.github_reports.length)
    ∧ (nodupKeys idx.github_reports = true → 1 ≤ n →
      needs_archival n (archive_reports ctime b d doi ts idx).2 = false) := by
  constructor
  · simp [needs_archival]
  · intro hnd hn
    unfold needs_archival
    rw [archive_github_empty ctime b d doi ts idx hnd]
    simp
    omega

/-- Witness for C6 at a two-report index with threshold 2. -/
theorem C6_needs_archival_witness :
    needs_archival 2 hotIdx = true
    ∧ needs_archival 2 (archive_reports (fun _ => none) "https://zenodo.org/api"
        "12" "10.5281/zenodo.12" "2026-02-01T00:00:00" hotIdx).2 = false :=
  ⟨(C6_needs_archival 2 hotIdx (fun _ => none) "https://zenodo.org/api" "12"
      "10.5281/zenodo.12" "2026-02-01T00:00:00").1.mpr (by decide),
   (C6_needs_archival 2 hotIdx (fun _ => none) "https://zenodo.org/api" "12"
      "10.5281/zenodo.12" "2026-02-01T00:00:00").2 (by decide) (by decide)⟩

/-! ## Claim C7 -/

/-- Claim C7: whenever the title matches the deposit pattern but its
schema token (lowercased) is outside the supported set, `_validate_title`
and therefore `validate` fail with exactly the message
"The identifier schema \x27<schema>\x27 is not supported", for any body
and any identifier-manager oracle. -/
theorem C7_unsupported_schema (env : Env) (title body d s ident : String)
    (hmatch : titleGroups title = some (d, s, ident))
    (hunsup : supportedSchemas.contains (strToLower s) = false) :
    _validate_title env.id_valid title
      = (false, unsupportedSchemaMsg (strToLower s))
    ∧ validate env title body = (false, unsupportedSchemaMsg (strToLower s)) := by
  have h1 : _validate_title env.id_valid title
      = (false, unsupportedSchemaMsg (strToLower s)) := by
    unfold _validate_title
    rw [hmatch]
    dsimp only
    rw [if_neg (fun hc => by rw [hc] at hunsup; exact Bool.noConfusion hunsup)]
  refine ⟨h1, ?_⟩
  unfold validate
  rw [h1]

/-- Witness for C7: the `issn` schema from the spec's example, giving the
exact message "The identifier schema \x27issn\x27 is not supported". -/
theorem C7_unsupported_schema_witness :
    titleGroups "deposit localhost:330 issn:2049-3630"
      = some ("localhost:330", "issn", "2049-3630")
    ∧ validate oracleEnv "deposit localhost:330 issn:2049-3630" "any body"
      = (false, "The identifier schema \x27issn\x27 is not supported") :=
  ⟨by decide,
   (C7_unsupported_schema oracleEnv "deposit localhost:330 issn:2049-3630"
      "any body" "localhost:330" "issn" "2049-3630" (by decide) (by decide)).2⟩

/-! ## Claim C8 -/

/-- Claim C8: for any title the title validator accepts and any body not
containing the sentinel separator, `validate` fails with the fixed
instructional message, which contains "Please use the separator". -/
theorem C8_missing_separator (env : Env) (title body : String)
    (htitle : _validate_title env.id_valid title = (true, ""))
    (hsep : strContains body sepToken = false) :
    validate env title body = (false, sepMsg)
    ∧ strContains sepMsg "Please use the separator" = true := by
  refine ⟨?_, by decide⟩
  unfold validate
  rw [htitle]
  dsimp only
  rw [if_neg (by simp [hsep])]

/-- Witness for C8 at a valid DOI title and a separator-free body. -/
theorem C8_missing_separator_witness :
    validate oracleEnv "deposit localhost:330 doi:10.1007/978-3-030-00668-6_8"
      "id,title\nno separator here" = (false, sepMsg) :=
  (C8_missing_separator oracleEnv
    "deposit localhost:330 doi:10.1007/978-3-030-00668-6_8"
    "id,title\nno separator here" (by decide) (by decide)).1

/-! ## Claim C9 -/

/-- Claim C9: with `safe_list.txt` absent every identity is unauthorized
(`is_in_safe_list` is total, modelling that the `FileNotFoundError`
handler returns `False` rather than propagating), and with the file
present an identity is authorized exactly when some stripped line equals
its decimal rendering. -/
theorem C9_safe_list (uid : Int) (lines : List String) :
    is_in_safe_list none uid = false
    ∧ (is_in_safe_list (some lines) uid = true ↔
        ∃ l ∈ lines, pyStrip l = toString uid) := by
  refine ⟨rfl, ?_⟩
  simp [is_in_safe_list, safeMember, List.any_eq_true]

/-! ## Claim C10 -/

/-- Claim C10: when an authorized issue passes `validate` but
`get_data_to_store` then raises, the `answer` side effect has already run
with the success verdict — label "to be processed" and the congratulatory
comment (the message of a successful `validate` is always `thankYouMsg`) —
yet no payload is appended, the exception is swallowed, and the remaining
issues are processed unchanged: success notification is not atomic with
payload accumulation. -/
theorem C10_swallowed_data_error (env : Env) (i : Issue) (msg e : String)
    (rest : List Issue)
    (hauth : safeMember env.safe_list (pyUidStr (env.user_id i.authorLogin))
      = true)
    (hv : validate env i.title i.body = (true, msg))
    (hd : get_data_to_store i.title i.body i.createdAt i.url
      (env.user_id i.authorLogin) = .error e) :
    msg = thankYouMsg
    ∧ process_issue env i = (mkAnswer true msg i.number true, none)
    ∧ process_open_issues env (i :: rest)
      = (mkAnswer true msg i.number true :: (process_open_issues env rest).1,
         (process_open_issues env rest).2) := by
  refine ⟨validate_true_msg hv, ?_, ?_⟩
  · simp [process_issue, hauth, hv, hd]
  · simp [process_open_issues, process_issue, hauth, hv, hd]

/-- Witness for C10 at `doubleSepIssue`, whose body holds the separator
twice: validation succeeds (it only looks at the first two sections), the
acceptance answer is posted, `get_data_to_store` raises on unpacking the
three-way split, and processing continues with an empty accumulator. -/
theorem C10_swallowed_data_error_witness :
    process_issue oracleEnv doubleSepIssue
      = (mkAnswer true thankYouMsg doubleSepIssue.number true, none)
    ∧ process_open_issues oracleEnv [doubleSepIssue]
      = ([mkAnswer true thankYouMsg doubleSepIssue.number true], []) := by
  have h := C10_swallowed_data_error oracleEnv doubleSepIssue thankYouMsg
    "Failed to process issue data: too many values to unpack (expected 2)" []
    (by decide) (by decide) (by decide)
  exact ⟨h.2.1, h.2.2⟩
